import Mathlib

/-!
Shallow embedding of the analytics engine of `device-activity-tracker`
(`src/analytics/networkIntelligence.ts` and `src/analytics/analytics.ts`),
with theorems checking the natural-language specification against it.

Modelling conventions:
* TypeScript `number` is modelled by `ℚ` where the source only performs
  field arithmetic, comparisons and `Math.floor`/`Math.round`/`Math.min`/
  `Math.max`; where the source takes a square root (`Math.sqrt`, used for
  standard deviations) the value is modelled in `ℝ` via `Real.sqrt`.
* Timestamps are epoch milliseconds, modelled as `ℕ`.
* JavaScript `Map`/`Set` iteration follows insertion order; grouping by a
  key is modelled by `List.eraseDups` over the keys in list order (first
  occurrences, in order) together with `List.filter` for each group.
* `Array.prototype.sort` is a stable comparator sort; it is modelled by
  `List.insertionSort` with the non-strict order, which is stable.
* `date-fns`' `getHours`/`getDay` read the clock in the timezone of the
  environment; they are modelled at UTC (offset zero).
* A JavaScript division whose divisor can be zero yields `NaN`/`Infinity`;
  the one such unguarded spot (`detectLatencyTrend`) is modelled with
  `Option`, returning `none` where the source would divide by zero.
-/

set_option allowUnsafeReducibility true

set_option linter.unusedVariables false

set_option maxRecDepth 8000

attribute [local semireducible] Rat.add Rat.mul Rat.sub Rat.div Rat.inv Rat.neg
  Rat.ofScientific

namespace DeviceActivity

/-- Presence state literals of `models.ts`:
`'Online' | 'Standby' | 'OFFLINE' | 'Calibrating'` (the offline literal is
uppercase in the source). -/
inductive PresenceState where
  | Online
  | Standby
  | OFFLINE
  | Calibrating
  deriving DecidableEq, Repr

/-- RTTMeasurement of `models.ts`, restricted to the fields the analytics
engine reads (`deviceJid`, `rtt`, `timestamp`, `state`, `networkQuality`);
the remaining fields (`id`, `sessionId`, `jid`, `networkType`, `avgRtt`,
`medianRtt`, `threshold`) are never consulted by the analyzed functions. -/
structure RTTMeasurement where
  sessionId : String := ""
  deviceJid : String
  rtt : ℚ
  timestamp : ℕ
  state : PresenceState
  networkQuality : Option ℚ := none
  deriving DecidableEq, Repr

/-- StateTransition of `models.ts`. `fromState`/`toState` are plain strings
in the source and are compared against the literals `"Online"`, `"Standby"`
and `"OFFLINE"`; `duration` is optional (milliseconds in `fromState`). -/
structure StateTransition where
  sessionId : String := ""
  deviceJid : String
  fromState : String
  toState : String
  timestamp : ℕ
  duration : Option ℚ := none
  deriving DecidableEq, Repr

/-! ## Generic numeric helpers (simple-statistics and inline reductions) -/

/-- Mean of a list, `xs.reduce((a,b) => a+b, 0) / xs.length` in the source;
every call site guards against the empty list, where the model returns 0. -/
def listMean (l : List ℚ) : ℚ := l.sum / l.length

/-- Minimum, `stats.min`; the source throws on the empty list, which every
call site rules out, so the model returns 0 there. -/
def listMin : List ℚ → ℚ
  | [] => 0
  | x :: xs => xs.foldl min x

/-- Maximum, `stats.max`; empty case as in `listMin`. -/
def listMax : List ℚ → ℚ
  | [] => 0
  | x :: xs => xs.foldl max x

/-- Ascending stable numeric sort, `[...xs].sort((a, b) => a - b)`. -/
def sortAsc (l : List ℚ) : List ℚ := List.insertionSort (· ≤ ·) l

/-- Population variance as computed both by `NetworkIntelligence.calculateVariance`
and by simple-statistics' `variance`: mean of squared deviations, 0 on the
empty list. -/
def calculateVariance (values : List ℚ) : ℚ :=
  if values.length = 0 then 0
  else
    let mean := listMean values
    (values.map (fun value => (value - mean) ^ 2)).sum / values.length

/-- Quantile of an ascending-sorted list, simple-statistics `quantileSorted`:
with `idx = length · p`, take the last element for `p = 1`, the first for
`p = 0`, the element at `⌈idx⌉ - 1` when `idx` is fractional, the mean of
the elements at `idx - 1` and `idx` when `idx` is integral and the length
is even, and the element at `idx` otherwise. The source throws on the empty
list (every call site guards); the model returns 0 there. -/
def quantileSorted (x : List ℚ) (p : ℚ) : ℚ :=
  if x.length = 0 then 0
  else if p = 1 then x.getD (x.length - 1) 0
  else if p = 0 then x.getD 0 0
  else
    let idx : ℚ := (x.length : ℚ) * p
    if idx.den ≠ 1 then x.getD (⌈idx⌉ - 1).toNat 0
    else if x.length % 2 = 0 then
      (x.getD (⌊idx⌋ - 1).toNat 0 + x.getD ⌊idx⌋.toNat 0) / 2
    else x.getD ⌊idx⌋.toNat 0

/-- simple-statistics `quantile`: select on a copy, then read as if sorted. -/
def quantile (x : List ℚ) (p : ℚ) : ℚ := quantileSorted (sortAsc x) p

/-! ## NetworkIntelligence (`src/analytics/networkIntelligence.ts`) -/

inductive NetworkType where
  | WiFi
  | Mobile
  | Unknown
  deriving DecidableEq, Repr

inductive LatencyTrend where
  | improving
  | stable
  | degrading
  deriving DecidableEq, Repr

/-- NetworkIntelligence.detectNetworkType: fewer than 10 samples is
`Unknown`; else median/Q1/Q3 at sorted indices `⌊n·0.5⌋`, `⌊n·0.25⌋`,
`⌊n·0.75⌋` (the multiplications by the dyadic constants 0.5/0.25/0.75 are
exact in the source's floats, so the indices are the integer divisions
below), WiFi first, then Mobile, else `Unknown`. -/
def detectNetworkType (rttHistory : List ℚ) : NetworkType :=
  if rttHistory.length < 10 then .Unknown
  else
    let sorted := sortAsc rttHistory
    let median := sorted.getD (sorted.length / 2) 0
    let q1 := sorted.getD (sorted.length / 4) 0
    let q3 := sorted.getD (sorted.length * 3 / 4) 0
    let iqr := q3 - q1
    let variance := calculateVariance rttHistory
    let isLikelyWiFi := median < 500 ∧ variance < 50000 ∧ iqr < 200
    let isLikelyMobile := median > 800 ∨ variance > 100000 ∨ iqr > 400
    if isLikelyWiFi then .WiFi
    else if isLikelyMobile then .Mobile
    else .Unknown

/-- Standard deviation of a sample list, `Math.sqrt(variance)`. -/
noncomputable def stdDevOf (values : List ℚ) : ℝ :=
  Real.sqrt (calculateVariance values)

/-- NetworkIntelligence.calculateNetworkQuality: default 50 under 5 samples,
else `round(0.6·latencyScore + 0.4·stabilityScore)` with both scores clamped
to [0,100]. -/
noncomputable def calculateNetworkQuality (rttHistory : List ℚ) : ℤ :=
  if rttHistory.length < 5 then 50
  else
    let mean := listMean rttHistory
    let stdDev := stdDevOf rttHistory
    let latencyScore : ℝ := max 0 (min 100 (100 - (((mean : ℝ) - 100) / 19)))
    let stabilityScore : ℝ := max 0 (min 100 (100 - ((stdDev - 50) / 4.5)))
    round (latencyScore * 0.6 + stabilityScore * 0.4)

/-- NetworkIntelligence.calculateConnectionStability: default 50 under 10
samples, else clamp `100 - (cv - 10)·2.5` to [0,100], where the coefficient
of variation `cv` is `stdDev/mean·100`, guarded to 0 when the mean is not
positive. -/
noncomputable def calculateConnectionStability (rttHistory : List ℚ) : ℝ :=
  if rttHistory.length < 10 then 50
  else
    let mean := listMean rttHistory
    let stdDev := stdDevOf rttHistory
    let cv : ℝ := if mean > 0 then stdDev / (mean : ℝ) * 100 else 0
    max 0 (min 100 (100 - ((cv - 10) * 2.5)))

/-- NetworkIntelligence.detectLatencyTrend: `stable` under 20 samples; else
compare the halves. The source divides `secondAvg - firstAvg` by `firstAvg`
with no zero guard (a JavaScript division by zero yields `NaN`/`Infinity`),
so the model returns `none` exactly when `firstAvg = 0` there. -/
def detectLatencyTrend (rttHistory : List ℚ) : Option LatencyTrend :=
  if rttHistory.length < 20 then some .stable
  else
    let mid := rttHistory.length / 2
    let firstHalf := rttHistory.take mid
    let secondHalf := rttHistory.drop mid
    let firstAvg := listMean firstHalf
    let secondAvg := listMean secondHalf
    if firstAvg = 0 then none
    else
      let change := (secondAvg - firstAvg) / firstAvg * 100
      if change < -10 then some .improving
      else if change > 10 then some .degrading
      else some .stable

/-- NetworkIntelligence.calculatePacketLossIndicator: 0 under 5 samples,
else `min(100, round(outlierRate · 10))` where an outlier exceeds the IQR
upper fence `q3 + 1.5·iqr` or `0.8 ·` the timeout threshold. -/
def calculatePacketLossIndicator (rttHistory : List ℚ)
    (timeoutThreshold : ℚ := 10000) : ℤ :=
  if rttHistory.length < 5 then 0
  else
    let sorted := sortAsc rttHistory
    let q3 := sorted.getD (sorted.length * 3 / 4) 0
    let iqr := q3 - sorted.getD (sorted.length / 4) 0
    let upperBound := q3 + 1.5 * iqr
    let outliers := rttHistory.filter
      (fun rtt => rtt > upperBound ∨ rtt > timeoutThreshold * 0.8)
    let outlierRate : ℚ := (outliers.length : ℚ) / rttHistory.length * 100
    min 100 (round (outlierRate * 10))

/-- NetworkIntelligence.calculateConnectionReliability: 0 when `totalProbes`
is 0, else `round(0.7·successRate + 0.3·stability)` where
`successRate = countBelowThreshold / totalProbes · 100`. -/
noncomputable def calculateConnectionReliability (rttHistory : List ℚ)
    (totalProbes : ℕ) (timeoutThreshold : ℚ := 10000) : ℤ :=
  if totalProbes = 0 then 0
  else
    let successfulProbes := (rttHistory.filter (fun rtt => rtt < timeoutThreshold)).length
    let successRate : ℚ := (successfulProbes : ℚ) / (totalProbes : ℚ) * 100
    let stability := calculateConnectionStability rttHistory
    round ((successRate : ℝ) * 0.7 + stability * 0.3)

/-- Result record of NetworkIntelligence.analyzeNetwork. -/
structure NetworkAnalysis where
  networkType : NetworkType
  networkQuality : ℤ
  connectionStability : ℝ
  latencyTrend : Option LatencyTrend
  packetLossIndicator : ℤ
  connectionReliability : ℤ

/-- NetworkIntelligence.analyzeNetwork: aggregates every scorer (default
`totalProbes = 0` as in the source). -/
noncomputable def analyzeNetwork (rttHistory : List ℚ) (totalProbes : ℕ := 0) :
    NetworkAnalysis where
  networkType := detectNetworkType rttHistory
  networkQuality := calculateNetworkQuality rttHistory
  connectionStability := calculateConnectionStability rttHistory
  latencyTrend := detectLatencyTrend rttHistory
  packetLossIndicator := calculatePacketLossIndicator rttHistory
  connectionReliability := calculateConnectionReliability rttHistory totalProbes

/-! ## AnalyticsEngine (`src/analytics/analytics.ts`) -/

/-- date-fns `getHours(new Date(t))`, modelled at UTC: hour of day 0–23. -/
def getHours (t : ℕ) : ℕ := t / 3600000 % 24

/-- date-fns `getDay(new Date(t))`, modelled at UTC: day of week, 0 = Sunday
(epoch day 0, 1970-01-01, was a Thursday, hence the offset 4). -/
def getDay (t : ℕ) : ℕ := (t / 86400000 + 4) % 7

/-- date-fns `differenceInMinutes(a, b)`: millisecond difference divided by
60000, truncated toward zero. -/
def differenceInMinutes (laterDate earlierDate : ℕ) : ℤ :=
  Int.tdiv ((laterDate : ℤ) - (earlierDate : ℤ)) 60000

structure DailyPattern where
  hour : ℕ
  avgActivity : ℚ
  avgRTT : ℚ
  onlinePercentage : ℚ
  deriving DecidableEq, Repr

structure WeeklyPattern where
  day : ℕ
  avgActivity : ℚ
  avgRTT : ℚ
  onlinePercentage : ℚ
  deriving DecidableEq, Repr

structure ActivityPattern where
  hour : ℕ
  day : ℕ
  activityLevel : ℚ
  avgRTT : ℚ
  measurementCount : ℕ
  deriving DecidableEq, Repr

/-- Result record of AnalyticsEngine.analyzeActivityPatterns. -/
structure ActivityPatterns where
  daily : List DailyPattern
  weekly : List WeeklyPattern
  heatmap : List ActivityPattern
  deriving DecidableEq, Repr

/-- AnalyticsEngine.analyzeActivityPatterns: empty input short-circuits to
three empty lists; otherwise 24 hourly buckets, 7 day-of-week buckets, and
one heatmap entry per observed `(day, hour)` pair in first-appearance order
(the source's `Map` insertion order). -/
def analyzeActivityPatterns (measurements : List RTTMeasurement) : ActivityPatterns :=
  if measurements.length = 0 then ⟨[], [], []⟩
  else
    let daily := (List.range 24).map (fun hour =>
      let hourData := measurements.filter (fun m => getHours m.timestamp = hour)
      let onlineCount := (hourData.filter (fun m => m.state = .Online)).length
      let avgRTT := if hourData.length > 0 then (hourData.map (·.rtt)).sum / (hourData.length : ℚ) else 0
      ({ hour
         avgActivity := (hourData.length : ℚ)
         avgRTT
         onlinePercentage :=
           if hourData.length > 0 then (onlineCount : ℚ) / (hourData.length : ℚ) * 100 else 0 } : DailyPattern))
    let weekly := (List.range 7).map (fun day =>
      let dayData := measurements.filter (fun m => getDay m.timestamp = day)
      let onlineCount := (dayData.filter (fun m => m.state = .Online)).length
      let avgRTT := if dayData.length > 0 then (dayData.map (·.rtt)).sum / (dayData.length : ℚ) else 0
      ({ day
         avgActivity := (dayData.length : ℚ)
         avgRTT
         onlinePercentage :=
           if dayData.length > 0 then (onlineCount : ℚ) / (dayData.length : ℚ) * 100 else 0 } : WeeklyPattern))
    let heatmapKeys := (measurements.map (fun m => (getDay m.timestamp, getHours m.timestamp))).eraseDups
    let heatmap := heatmapKeys.map (fun key =>
      let data := measurements.filter
        (fun m => getDay m.timestamp = key.1 ∧ getHours m.timestamp = key.2)
      let onlineCount := (data.filter (fun m => m.state = .Online)).length
      ({ hour := key.2
         day := key.1
         activityLevel := (onlineCount : ℚ) / (data.length : ℚ) * 100
         avgRTT := (data.map (·.rtt)).sum / (data.length : ℚ)
         measurementCount := data.length } : ActivityPattern))
    ⟨daily, weekly, heatmap⟩

structure RttDistribution where
  min : ℚ
  max : ℚ
  mean : ℚ
  median : ℚ
  stdDev : ℝ
  q1 : ℚ
  q3 : ℚ
  iqr : ℚ

structure StateDurations where
  online : ℚ
  standby : ℚ
  offline : ℚ
  deriving DecidableEq, Repr

structure TransitionFrequency where
  total : ℕ
  onlineToStandby : ℕ
  standbyToOnline : ℕ
  toOffline : ℕ
  fromOffline : ℕ
  deriving DecidableEq, Repr

structure NetworkQualityRollup where
  avgQuality : ℚ
  avgStability : ℚ
  avgReliability : ℚ
  deriving DecidableEq, Repr

/-- Result record of AnalyticsEngine.performStatisticalAnalysis. -/
structure StatisticalAnalysis where
  rttDistribution : RttDistribution
  stateDurations : StateDurations
  transitionFrequency : TransitionFrequency
  networkQuality : NetworkQualityRollup

/-- AnalyticsEngine.calculateStateDurations: group transitions by device
(first-appearance order), sort each group by timestamp (stable), and for
every transition carrying a `duration` add `duration / 60000` minutes to the
bucket named by its `fromState`. The source's truthiness test
`if (t.duration)` also skips a present duration equal to 0, which adds 0
minutes either way, so the totals agree with the `Option` match below.
The `measurements` argument is in the source's signature but never read. -/
def calculateStateDurations (measurements : List RTTMeasurement)
    (transitions : List StateTransition) : StateDurations :=
  let deviceIds := (transitions.map (·.deviceJid)).eraseDups
  deviceIds.foldl (fun acc d =>
    let sorted := List.insertionSort (fun a b => a.timestamp ≤ b.timestamp)
        (transitions.filter (fun t => t.deviceJid = d))
    sorted.foldl (fun acc t =>
      match t.duration with
      | some dur =>
        let minutes := dur / (60 * 1000)
        if t.fromState = "Online" then { acc with online := acc.online + minutes }
        else if t.fromState = "Standby" then { acc with standby := acc.standby + minutes }
        else if t.fromState = "OFFLINE" then { acc with offline := acc.offline + minutes }
        else acc
      | none => acc) acc) ⟨0, 0, 0⟩

/-- AnalyticsEngine.performStatisticalAnalysis: all-zero record on an empty
measurement list (whatever the transitions are); otherwise the RTT
distribution via simple-statistics, state durations from transitions,
transition frequency counts, and the network-quality rollup whose
`avgStability`/`avgReliability` the source hard-codes to 0. -/
noncomputable def performStatisticalAnalysis (measurements : List RTTMeasurement)
    (transitions : List StateTransition) : StatisticalAnalysis :=
  if measurements.length = 0 then
    { rttDistribution := ⟨0, 0, 0, 0, 0, 0, 0, 0⟩
      stateDurations := ⟨0, 0, 0⟩
      transitionFrequency := ⟨0, 0, 0, 0, 0⟩
      networkQuality := ⟨0, 0, 0⟩ }
  else
    let rtts := measurements.map (·.rtt)
    let sortedRtts := sortAsc rtts
    { rttDistribution :=
        { min := listMin rtts
          max := listMax rtts
          mean := listMean rtts
          median := quantile rtts 0.5
          stdDev := stdDevOf rtts
          q1 := quantileSorted sortedRtts 0.25
          q3 := quantileSorted sortedRtts 0.75
          iqr := quantileSorted sortedRtts 0.75 - quantileSorted sortedRtts 0.25 }
      stateDurations := calculateStateDurations measurements transitions
      transitionFrequency :=
        { total := transitions.length
          onlineToStandby := (transitions.filter
              (fun t => t.fromState = "Online" ∧ t.toState = "Standby")).length
          standbyToOnline := (transitions.filter
              (fun t => t.fromState = "Standby" ∧ t.toState = "Online")).length
          toOffline := (transitions.filter (fun t => t.toState = "OFFLINE")).length
          fromOffline := (transitions.filter (fun t => t.fromState = "OFFLINE")).length }
      networkQuality :=
        let networkQualities := (measurements.filter (fun m => m.networkQuality.isSome)).map
            (fun m => m.networkQuality.getD 0)
        { avgQuality :=
            if networkQualities.length > 0 then listMean networkQualities else 0
          avgStability := 0
          avgReliability := 0 } }

/-! ### Behavioral insights -/

structure PeakActivity where
  hour : ℕ
  activity : ℚ
  deriving DecidableEq, Repr

structure SleepWakeDetection where
  typicalWakeTime : Option ℕ := none
  typicalSleepTime : Option ℕ := none
  sleepPatternDetected : Bool
  deriving DecidableEq, Repr

structure DeviceUsage where
  deviceJid : String
  usagePercentage : ℚ
  avgRTT : ℚ
  deriving DecidableEq, Repr

structure MultiDeviceCoordination where
  simultaneousDevices : ℕ
  avgSimultaneousDevices : ℚ
  coordinationScore : ℚ
  deriving DecidableEq, Repr

structure ResponseTimePatterns where
  avgResponseTime : ℚ
  fastestResponseTime : ℚ
  slowestResponseTime : ℚ
  responseTimeConsistency : ℝ

/-- Result record of AnalyticsEngine.generateBehavioralInsights. -/
structure BehavioralInsights where
  averageSessionLength : ℤ
  peakActivityTimes : List PeakActivity
  sleepWakeDetection : SleepWakeDetection
  deviceUsagePatterns : List DeviceUsage
  multiDeviceCoordination : MultiDeviceCoordination
  responseTimePatterns : ResponseTimePatterns

/-- Measurement count of one hour bucket, the value stored in the source's
`hourActivity` map (`hourActivity.get(hour) || 0` for an absent hour). -/
def hourCount (ms : List RTTMeasurement) (hour : ℕ) : ℕ :=
  ms.countP (fun m => getHours m.timestamp = hour)

/-- Hours with at least one measurement, in first-appearance order (the
source's `hourActivity` `Map` key insertion order). -/
def presentHours (ms : List RTTMeasurement) : List ℕ :=
  (ms.map (fun m => getHours m.timestamp)).eraseDups

/-- Mean hourly count over the hours present in the map,
`values.reduce((a,b) => a+b, 0) / hourActivity.size`. -/
def meanHourlyCount (ms : List RTTMeasurement) : ℚ :=
  ((presentHours ms).map (fun h => (hourCount ms h : ℚ))).sum / ((presentHours ms).length : ℚ)

/-- First 6 hours of the map entries stable-sorted by ascending count: the
source's `sortedHours.slice(0, 6)` low-activity candidate set. -/
def lowActivityHours (ms : List RTTMeasurement) : List ℕ :=
  (List.insertionSort (fun a b => hourCount ms a ≤ hourCount ms b) (presentHours ms)).take 6

/-- AnalyticsEngine.findWakeTime: first hour 0→23 outside the low-activity
set whose count exceeds 1.5 × the mean hourly count. -/
def findWakeTime (ms : List RTTMeasurement) : Option ℕ :=
  (List.range 24).find? (fun hour =>
    !(lowActivityHours ms).contains hour &&
      decide ((hourCount ms hour : ℚ) > meanHourlyCount ms * 1.5))

/-- AnalyticsEngine.findSleepTime: first hour 0→23 inside the low-activity
set whose count is below 0.5 × the mean hourly count. -/
def findSleepTime (ms : List RTTMeasurement) : Option ℕ :=
  (List.range 24).find? (fun hour =>
    (lowActivityHours ms).contains hour &&
      decide ((hourCount ms hour : ℚ) < meanHourlyCount ms * 0.5))

/-- AnalyticsEngine.detectSleepWakePatterns: requires at least 100
measurements, else `{sleepPatternDetected: false}`; detection holds iff a
wake or a sleep hour was found. -/
def detectSleepWakePatterns (ms : List RTTMeasurement) : SleepWakeDetection :=
  if ms.length < 100 then { sleepPatternDetected := false }
  else
    let wakeTime := findWakeTime ms
    let sleepTime := findSleepTime ms
    { typicalWakeTime := wakeTime
      typicalSleepTime := sleepTime
      sleepPatternDetected := wakeTime.isSome || sleepTime.isSome }

/-- Distinct device ids in first-appearance order (`deviceMap` key order). -/
def deviceJids (ms : List RTTMeasurement) : List String :=
  (ms.map (·.deviceJid)).eraseDups

/-- `Math.floor(timestamp / 60000) * 60000`: the containing minute. -/
def minuteOf (t : ℕ) : ℕ := t / 60000 * 60000

/-- Minute set of one device (`deviceTimestamps.get(d)`), as a list of its
distinct minutes in insertion order. -/
def deviceMinutes (ms : List RTTMeasurement) (d : String) : List ℕ :=
  ((ms.filter (fun m => m.deviceJid = d)).map (fun m => minuteOf m.timestamp)).eraseDups

/-- Union of the devices' minute sets (`allMinutes`), insertion order. -/
def allMinutes (ms : List RTTMeasurement) : List ℕ :=
  (List.flatten ((deviceJids ms).map (deviceMinutes ms))).eraseDups

/-- Number of devices active in a given minute. -/
def activeDevices (ms : List RTTMeasurement) (minute : ℕ) : ℕ :=
  (deviceJids ms).countP (fun d => (deviceMinutes ms d).contains minute)

/-- AnalyticsEngine.generateBehavioralInsights. The source reads the wall
clock (`new Date()`) for the session length when `sessionEndTime` is
undefined; that clock value is the explicit `now` argument here. The
`transitions` argument is in the source's signature but never read. -/
noncomputable def generateBehavioralInsights (measurements : List RTTMeasurement)
    (transitions : List StateTransition) (sessionStartTime : ℕ)
    (sessionEndTime : Option ℕ) (now : ℕ) : BehavioralInsights :=
  if measurements.length = 0 then
    { averageSessionLength := 0
      peakActivityTimes := []
      sleepWakeDetection := { sleepPatternDetected := false }
      deviceUsagePatterns := []
      multiDeviceCoordination := ⟨0, 0, 0⟩
      responseTimePatterns := ⟨0, 0, 0, 0⟩ }
  else
    let sessionDuration :=
      match sessionEndTime with
      | some endTime => differenceInMinutes endTime sessionStartTime
      | none => differenceInMinutes now sessionStartTime
    let daily := (analyzeActivityPatterns measurements).daily
    let peakActivityTimes := (List.insertionSort (fun a b => b.activity ≤ a.activity)
        (daily.enum.map (fun p => ({ hour := p.1, activity := p.2.avgActivity } : PeakActivity)))).take 5
    let totalMeasurements := measurements.length
    let deviceUsagePatterns := (deviceJids measurements).map (fun d =>
      let deviceMeasurements := measurements.filter (fun m => m.deviceJid = d)
      ({ deviceJid := d
         usagePercentage := (deviceMeasurements.length : ℚ) / (totalMeasurements : ℚ) * 100
         avgRTT := (deviceMeasurements.map (·.rtt)).sum / (deviceMeasurements.length : ℚ) } : DeviceUsage))
    let minutes := allMinutes measurements
    let simultaneousCount := minutes.countP (fun minute => activeDevices measurements minute > 1)
    let avgSimultaneousDevices : ℚ :=
      if minutes.length > 0 then
        (minutes.map (fun minute => (activeDevices measurements minute : ℚ))).sum / (minutes.length : ℚ)
      else 1
    let coordinationScore : ℚ :=
      if minutes.length > 0 then (simultaneousCount : ℚ) / (minutes.length : ℚ) * 100 else 0
    let responseTimes := (measurements.filter (fun m => m.state = .Online)).map (·.rtt)
    let avgResponseTime := if responseTimes.length > 0 then listMean responseTimes else 0
    let responseTimeStdDev : ℝ := if responseTimes.length > 0 then stdDevOf responseTimes else 0
    { averageSessionLength := sessionDuration
      peakActivityTimes
      sleepWakeDetection := detectSleepWakePatterns measurements
      deviceUsagePatterns
      multiDeviceCoordination :=
        { simultaneousDevices := (deviceJids measurements).length
          avgSimultaneousDevices
          coordinationScore }
      responseTimePatterns :=
        { avgResponseTime
          fastestResponseTime := if responseTimes.length > 0 then listMin responseTimes else 0
          slowestResponseTime := if responseTimes.length > 0 then listMax responseTimes else 0
          responseTimeConsistency :=
            if avgResponseTime > 0 then
              max 0 (min 100 (100 - (responseTimeStdDev / (avgResponseTime : ℝ) * 100)))
            else 0 } }

/-! ## Concrete inputs used by the example-based claims -/

/-- Measurement with only the analytics-relevant fields set. -/
def mkMeas (d : String) (rtt : ℚ) (t : ℕ) (st : PresenceState) : RTTMeasurement :=
  { deviceJid := d, rtt := rtt, timestamp := t, state := st }

/-- Four measurements whose RTTs are 10, 20, 30, 40. -/
def statMeasurements : List RTTMeasurement :=
  [mkMeas "A" 10 0 .Online, mkMeas "A" 20 1 .Online,
   mkMeas "A" 30 2 .Online, mkMeas "A" 40 3 .Online]

/-- Two devices: device A with measurements in minutes 0, 1, 2 and device B
in minutes 1, 2. -/
def coordMeasurements : List RTTMeasurement :=
  [mkMeas "A" 100 0 .Online, mkMeas "A" 100 60000 .Online,
   mkMeas "A" 100 120000 .Online, mkMeas "B" 100 60000 .Online,
   mkMeas "B" 100 120000 .Online]

/-- Ten WiFi-like samples from the spec's example. -/
def wifiHistory : List ℚ := [100, 105, 110, 95, 102, 98, 103, 107, 99, 101]

/-- One hundred identical measurements (hour 0), enough to enter the
sleep/wake detection branch. -/
def manyMeasurements : List RTTMeasurement :=
  List.replicate 100 (mkMeas "A" 10 0 .Online)

/-! ## Spec-side definitions (written from the spec's words, for comparison
with the source translation) -/

/-- Index `⌊n · p⌋` as the spec words it ("sorted indices floor(n·0.5),
floor(n·0.25), floor(n·0.75)"), computed with the rational floor. -/
def floorIndex (n : ℕ) (p : ℚ) : ℕ := ⌊(n : ℚ) * p⌋₊

/-- Median as the spec words it: sorted element at index `⌊n·0.5⌋`. -/
def specMedian (l : List ℚ) : ℚ := (sortAsc l).getD (floorIndex l.length 0.5) 0

/-- First quartile as the spec words it: sorted element at `⌊n·0.25⌋`. -/
def specQ1 (l : List ℚ) : ℚ := (sortAsc l).getD (floorIndex l.length 0.25) 0

/-- Third quartile as the spec words it: sorted element at `⌊n·0.75⌋`. -/
def specQ3 (l : List ℚ) : ℚ := (sortAsc l).getD (floorIndex l.length 0.75) 0

end DeviceActivity

namespace DeviceActivity

/-! ## Helper lemmas -/

/-- The source's filter-then-unwrap over optional quality fields is the
`filterMap` of the field. -/
theorem filter_isSome_map_getD (ms : List RTTMeasurement) :
    (ms.filter (fun m => m.networkQuality.isSome)).map (fun m => m.networkQuality.getD 0)
      = ms.filterMap (fun m => m.networkQuality) := by
  induction ms with
  | nil => rfl
  | cons m ms ih =>
    cases h : m.networkQuality with
    | none => simp [List.filter_cons, List.filterMap_cons, h, ih]
    | some q => simp [List.filter_cons, List.filterMap_cons, h, ih]

/-! ## Claim C1 -/

/-- C1 counterexample: on the empty measurement list the source
short-circuits to empty collections, so the daily list does not have 24
entries nor the weekly list 7. -/
theorem analyzeActivityPatterns_empty_not_fixed :
    (analyzeActivityPatterns []).daily.length ≠ 24 ∧
      (analyzeActivityPatterns []).weekly.length ≠ 7 := by
  exact ⟨by decide, by decide⟩

/-- C1 (amended): for every nonempty measurement input,
analyzeActivityPatterns returns a daily pattern list with exactly 24
entries and a weekly pattern list with exactly 7 entries; the empty input
instead yields empty daily/weekly/heatmap collections. -/
theorem analyzeActivityPatterns_lengths (ms : List RTTMeasurement) (h : ms ≠ []) :
    (analyzeActivityPatterns ms).daily.length = 24 ∧
      (analyzeActivityPatterns ms).weekly.length = 7 := by
  have hlen : ¬ ms.length = 0 := by simpa [List.length_eq_zero] using h
  unfold analyzeActivityPatterns
  rw [if_neg hlen]
  simp

/-- C1 witness: the amended theorem applied to a one-measurement list. -/
theorem analyzeActivityPatterns_lengths_witness :
    (analyzeActivityPatterns [mkMeas "A" 10 0 .Online]).daily.length = 24 ∧
      (analyzeActivityPatterns [mkMeas "A" 10 0 .Online]).weekly.length = 7 :=
  analyzeActivityPatterns_lengths [mkMeas "A" 10 0 .Online] (List.cons_ne_nil _ _)

/-! ## Claim C2 -/

/-- C2 counterexample: over RTTs [10,20,30,40] the code (simple-statistics
quantiles) returns q1 = 15, q3 = 35, iqr = 20, not the nearest-rank values
q1 = 20, q3 = 30, iqr = 10 the claim states. -/
theorem rttDistribution_example_not_nearest_rank :
    (performStatisticalAnalysis statMeasurements []).rttDistribution.q1 ≠ 20 ∧
      (performStatisticalAnalysis statMeasurements []).rttDistribution.q3 ≠ 30 ∧
      (performStatisticalAnalysis statMeasurements []).rttDistribution.iqr ≠ 10 := by
  exact ⟨by decide, by decide, by decide⟩

/-- C2 (amended): performStatisticalAnalysis on a measurement list whose
RTTs are [10,20,30,40] returns rttDistribution min 10, max 40, mean 25,
median 25, q1 15, q3 35, iqr 20, the quantiles computed by
simple-statistics' `quantileSorted` (sort ascending, `idx = length · p`;
for integral `idx` and even length, the mean of the elements at `idx - 1`
and `idx`). -/
theorem rttDistribution_example :
    (performStatisticalAnalysis statMeasurements []).rttDistribution.min = 10 ∧
      (performStatisticalAnalysis statMeasurements []).rttDistribution.max = 40 ∧
      (performStatisticalAnalysis statMeasurements []).rttDistribution.mean = 25 ∧
      (performStatisticalAnalysis statMeasurements []).rttDistribution.median = 25 ∧
      (performStatisticalAnalysis statMeasurements []).rttDistribution.q1 = 15 ∧
      (performStatisticalAnalysis statMeasurements []).rttDistribution.q3 = 35 ∧
      (performStatisticalAnalysis statMeasurements []).rttDistribution.iqr = 20 := by
  exact ⟨by decide, by decide, by decide, by decide, by decide, by decide, by decide⟩

/-! ## Claim C5 -/

/-- C5 counterexample: generateBehavioralInsights reads the wall clock when
`sessionEndTime` is absent, so two calls on the same stored input at two
different times return different records (session lengths 2 and 0 here). -/
theorem generateBehavioralInsights_reads_clock :
    generateBehavioralInsights [mkMeas "A" 10 0 .Online] [] 0 none 120000 ≠
      generateBehavioralInsights [mkMeas "A" 10 0 .Online] [] 0 none 0 := by
  intro h
  have h2 := congrArg BehavioralInsights.averageSessionLength h
  rw [show (generateBehavioralInsights [mkMeas "A" 10 0 .Online] [] 0 none 120000).averageSessionLength
        = 2 from by decide,
      show (generateBehavioralInsights [mkMeas "A" 10 0 .Online] [] 0 none 0).averageSessionLength
        = 0 from by decide] at h2
  exact absurd h2 (by decide)

/-- C5 (amended): every analyzer is a pure function of its explicit inputs;
generateBehavioralInsights additionally reads the clock when
`sessionEndTime` is absent, so it is time-independent (bit-identical across
call times) exactly when `sessionEndTime` is supplied. -/
theorem generateBehavioralInsights_time_independent (ms : List RTTMeasurement)
    (ts : List StateTransition) (start endTime now now' : ℕ) :
    generateBehavioralInsights ms ts start (some endTime) now =
      generateBehavioralInsights ms ts start (some endTime) now' := by
  unfold generateBehavioralInsights
  by_cases h : ms.length = 0
  · rw [if_pos h]
  · rw [if_neg h]

/-! ## Claim C6 -/

/-- C6 counterexample: on the two-device input (device A at minutes 0,1,2,
device B at minutes 1,2) the code computes the exact, unrounded
coordination score 200/3 = 66.666…, not 66.7. -/
theorem coordinationScore_not_667 :
    (generateBehavioralInsights coordMeasurements [] 0 (some 180000) 0).multiDeviceCoordination.coordinationScore
      ≠ 667 / 10 := by decide

/-- C6 (amended): for the two-device input (device A at minutes 0,1,2,
device B at minutes 1,2), generateBehavioralInsights returns
simultaneousDevices = 2 and coordinationScore = 200/3 — the exact,
unrounded percentage (2/3)·100 of active minutes in which more than one
device was active. -/
theorem multiDeviceCoordination_example :
    (generateBehavioralInsights coordMeasurements [] 0 (some 180000) 0).multiDeviceCoordination.simultaneousDevices
        = 2 ∧
      (generateBehavioralInsights coordMeasurements [] 0 (some 180000) 0).multiDeviceCoordination.coordinationScore
        = 200 / 3 := by
  exact ⟨by decide, by decide⟩

/-! ## Claim C8 -/

/-- C8: for every transitions list, performStatisticalAnalysis on the empty
measurement list returns the documented all-zero record (zero distribution,
zero state durations, zero network quality, and a transition frequency with
total 0 and all four sub-counts 0) — the transitions are not consulted. -/
theorem performStatisticalAnalysis_empty (transitions : List StateTransition) :
    performStatisticalAnalysis [] transitions =
      { rttDistribution := ⟨0, 0, 0, 0, 0, 0, 0, 0⟩
        stateDurations := ⟨0, 0, 0⟩
        transitionFrequency := ⟨0, 0, 0, 0, 0⟩
        networkQuality := ⟨0, 0, 0⟩ } := rfl

/-! ## Claim C9 -/

/-- C9: for every measurement and transition input, the networkQuality
rollup has avgStability = 0 and avgReliability = 0, while avgQuality is the
mean of the non-null networkQuality fields of the measurements (0 if none
carry one). -/
theorem networkQuality_rollup_spec (ms : List RTTMeasurement)
    (ts : List StateTransition) :
    (performStatisticalAnalysis ms ts).networkQuality.avgStability = 0 ∧
      (performStatisticalAnalysis ms ts).networkQuality.avgReliability = 0 ∧
      (performStatisticalAnalysis ms ts).networkQuality.avgQuality =
        (if (ms.filterMap (fun m => m.networkQuality)).length = 0 then 0
         else listMean (ms.filterMap (fun m => m.networkQuality))) := by
  by_cases h : ms.length = 0
  · have hnil : ms = [] := List.length_eq_zero.mp h
    subst hnil
    exact ⟨rfl, rfl, rfl⟩
  · unfold performStatisticalAnalysis
    rw [if_neg h]
    refine ⟨rfl, rfl, ?_⟩
    show (if ((ms.filter (fun m => m.networkQuality.isSome)).map
            (fun m => m.networkQuality.getD 0)).length > 0
          then listMean ((ms.filter (fun m => m.networkQuality.isSome)).map
            (fun m => m.networkQuality.getD 0))
          else 0) = _
    rw [filter_isSome_map_getD]
    rcases Nat.eq_zero_or_pos (ms.filterMap (fun m => m.networkQuality)).length with h0 | h0
    · simp [h0]
    · rw [if_pos h0, if_neg (Nat.pos_iff_ne_zero.mp h0)]

/-! ## Claims C3 and C10 -/

/-- Zero-mean histories of length at least 10 hit the guarded
coefficient-of-variation branch and clamp to a perfect stability score. -/
theorem stability_of_mean_zero (l : List ℚ) (h10 : 10 ≤ l.length)
    (hm : listMean l = 0) : calculateConnectionStability l = 100 := by
  unfold calculateConnectionStability
  rw [if_neg (Nat.not_lt.mpr h10)]
  simp only [hm, gt_iff_lt, lt_self_iff_false, if_false]
  norm_num

/-- C3: at ten zero RTTs, `totalProbes = 1` and the default timeout
threshold, calculateConnectionReliability returns 730, outside the [0,100]
range its own doc comment promises (the 10 sub-threshold samples are
counted against a single probe, giving a 1000% success rate). -/
theorem calculateConnectionReliability_out_of_range :
    calculateConnectionReliability (List.replicate 10 0) 1 10000 = 730 ∧
      ¬ calculateConnectionReliability (List.replicate 10 0) 1 10000 ≤ 100 := by
  have hstab : calculateConnectionStability (List.replicate 10 0) = 100 :=
    stability_of_mean_zero _ (by decide) (by decide)
  have h730 : calculateConnectionReliability (List.replicate 10 0) 1 10000 = 730 := by
    unfold calculateConnectionReliability
    rw [if_neg (by decide : ¬ (1 : ℕ) = 0)]
    simp only [hstab]
    have hlen : ((List.replicate 10 (0 : ℚ)).filter (fun rtt => rtt < 10000)).length = 10 := by
      decide
    rw [hlen]
    push_cast
    norm_num [round_eq]
  refine ⟨h730, ?_⟩
  rw [h730]
  decide

/-- C10: calculateConnectionStability guards its division — a zero mean over
at least 10 samples gives cv = 0 and, after clamping, the score 100 — while
detectLatencyTrend divides by the first-half average with no guard, so for
length at least 20 its classification is defined exactly when that average
is nonzero (modelled by `Option`: `some` a trend iff the first-half mean is
nonzero, `none` on the unguarded zero division). -/
theorem stability_trend_division_guards (l : List ℚ) :
    (10 ≤ l.length → listMean l = 0 → calculateConnectionStability l = 100) ∧
      (20 ≤ l.length → listMean (l.take (l.length / 2)) ≠ 0 →
        (detectLatencyTrend l).isSome) ∧
      (20 ≤ l.length → listMean (l.take (l.length / 2)) = 0 →
        detectLatencyTrend l = none) := by
  refine ⟨fun h10 hm => stability_of_mean_zero l h10 hm, ?_, ?_⟩
  · intro h20 hne
    unfold detectLatencyTrend
    rw [if_neg (Nat.not_lt.mpr h20)]
    simp only [hne, if_false]
    split
    · simp
    · split <;> simp
  · intro h20 hz
    unfold detectLatencyTrend
    rw [if_neg (Nat.not_lt.mpr h20)]
    simp only [hz, if_true]

/-- C10 witness: the guards at concrete histories — ten zeros score
stability 100; twenty ones classify (`isSome`); twenty zeros hit the
unguarded division (`none`). -/
theorem stability_trend_division_guards_witness :
    calculateConnectionStability (List.replicate 10 0) = 100 ∧
      (detectLatencyTrend (List.replicate 20 1)).isSome ∧
      detectLatencyTrend (List.replicate 20 0) = none :=
  ⟨(stability_trend_division_guards (List.replicate 10 0)).1 (by decide) (by decide),
   (stability_trend_division_guards (List.replicate 20 1)).2.1 (by decide) (by decide),
   (stability_trend_division_guards (List.replicate 20 0)).2.2 (by decide) (by decide)⟩

/-- Rounding keeps nonnegative values nonnegative. -/
theorem round_nonneg {α : Type} [LinearOrderedField α] [FloorRing α] {x : α}
    (h : 0 ≤ x) : 0 ≤ round x := by
  rw [round_eq]
  exact Int.le_floor.mpr (by push_cast; linarith)

/-- Rounding keeps values at most 100 at most 100. -/
theorem round_le_hundred {α : Type} [LinearOrderedField α] [FloorRing α] {x : α}
    (h : x ≤ 100) : round x ≤ 100 := by
  rw [round_eq]
  have hlt : ⌊x + 1 / 2⌋ < 101 := Int.floor_lt.mpr (by push_cast; linarith)
  omega

/-- Supporting C3: the three scorers other than
calculateConnectionReliability do honour the documented [0,100] range, for
every input history. -/
theorem other_scorers_in_range (l : List ℚ) :
    (0 ≤ calculateNetworkQuality l ∧ calculateNetworkQuality l ≤ 100) ∧
      ((0 : ℝ) ≤ calculateConnectionStability l ∧ calculateConnectionStability l ≤ 100) ∧
      (0 ≤ calculatePacketLossIndicator l 10000 ∧ calculatePacketLossIndicator l 10000 ≤ 100) := by
  refine ⟨?_, ?_, ?_⟩
  · unfold calculateNetworkQuality
    by_cases hlen : l.length < 5
    · rw [if_pos hlen]
      norm_num
    · rw [if_neg hlen]
      simp only []
      set ls : ℝ := max 0 (min 100 (100 - (((listMean l : ℝ) - 100) / 19))) with hls
      set ss : ℝ := max 0 (min 100 (100 - ((stdDevOf l - 50) / 4.5))) with hss
      have h1 : 0 ≤ ls := le_max_left _ _
      have h2 : ls ≤ 100 := max_le (by norm_num) (min_le_left _ _)
      have h3 : 0 ≤ ss := le_max_left _ _
      have h4 : ss ≤ 100 := max_le (by norm_num) (min_le_left _ _)
      exact ⟨round_nonneg (by nlinarith), round_le_hundred (by nlinarith)⟩
  · unfold calculateConnectionStability
    by_cases hlen : l.length < 10
    · rw [if_pos hlen]
      norm_num
    · rw [if_neg hlen]
      simp only []
      exact ⟨le_max_left _ _, max_le (by norm_num) (min_le_left _ _)⟩
  · unfold calculatePacketLossIndicator
    by_cases hlen : l.length < 5
    · rw [if_pos hlen]
      norm_num
    · rw [if_neg hlen]
      simp only []
      refine ⟨le_min (by norm_num) (round_nonneg (by positivity)), min_le_left _ _⟩

/-! ## Claim C4 -/

theorem sortAsc_length (l : List ℚ) : (sortAsc l).length = l.length :=
  List.length_insertionSort _ l

theorem floorIndex_half (n : ℕ) : floorIndex n 0.5 = n / 2 := by
  unfold floorIndex
  rw [show ((n : ℚ) * 0.5) = ((n : ℕ) : ℚ) / ((2 : ℕ) : ℚ) from by push_cast; ring]
  exact Nat.floor_div_eq_div n 2

theorem floorIndex_quarter (n : ℕ) : floorIndex n 0.25 = n / 4 := by
  unfold floorIndex
  rw [show ((n : ℚ) * 0.25) = ((n : ℕ) : ℚ) / ((4 : ℕ) : ℚ) from by push_cast; ring]
  exact Nat.floor_div_eq_div n 4

theorem floorIndex_threequarters (n : ℕ) : floorIndex n 0.75 = n * 3 / 4 := by
  unfold floorIndex
  rw [show ((n : ℚ) * 0.75) = (((n * 3 : ℕ)) : ℚ) / ((4 : ℕ) : ℚ) from by push_cast; ring]
  exact Nat.floor_div_eq_div (n * 3) 4

/-- C4: detectNetworkType returns Unknown below 10 samples; at 10 or more
it classifies WiFi first (median < 500 and population variance < 50000 and
IQR < 200, with median/Q1/Q3 at sorted indices ⌊n·0.5⌋/⌊n·0.25⌋/⌊n·0.75⌋),
else Mobile (median > 800 or variance > 100000 or IQR > 400), else Unknown;
on the ten WiFi-like samples it returns WiFi. -/
theorem detectNetworkType_spec (l : List ℚ) :
    (l.length < 10 → detectNetworkType l = .Unknown) ∧
      (10 ≤ l.length → detectNetworkType l =
        (if specMedian l < 500 ∧ calculateVariance l < 50000 ∧ specQ3 l - specQ1 l < 200
         then .WiFi
         else if specMedian l > 800 ∨ calculateVariance l > 100000 ∨ specQ3 l - specQ1 l > 400
         then .Mobile
         else .Unknown)) ∧
      detectNetworkType wifiHistory = .WiFi := by
  refine ⟨?_, ?_, by decide⟩
  · intro h
    unfold detectNetworkType
    rw [if_pos h]
  · intro h
    unfold detectNetworkType
    rw [if_neg (Nat.not_lt.mpr h)]
    simp only [specMedian, specQ1, specQ3, floorIndex_half, floorIndex_quarter,
      floorIndex_threequarters, sortAsc_length]

/-- C4 witness: the theorem applied to a 1-sample history (Unknown) and to
the spec's 10-sample WiFi-like history. -/
theorem detectNetworkType_spec_witness :
    detectNetworkType [1] = .Unknown ∧
      detectNetworkType wifiHistory =
        (if specMedian wifiHistory < 500 ∧ calculateVariance wifiHistory < 50000 ∧
            specQ3 wifiHistory - specQ1 wifiHistory < 200
         then .WiFi
         else if specMedian wifiHistory > 800 ∨ calculateVariance wifiHistory > 100000 ∨
            specQ3 wifiHistory - specQ1 wifiHistory > 400
         then .Mobile
         else .Unknown) :=
  ⟨(detectNetworkType_spec [1]).1 (by decide),
   (detectNetworkType_spec wifiHistory).2.1 (by decide)⟩

/-! ## Claim C7 -/

/-- Elements of the first `n` entries of a stable sort by an ascending key
have keys no larger than any element left outside those entries. -/
theorem take_sorted_le (f : ℕ → ℕ) (l : List ℕ) (n : ℕ) :
    ∀ a ∈ (List.insertionSort (fun x y => f x ≤ f y) l).take n,
      ∀ b ∈ l, b ∉ (List.insertionSort (fun x y => f x ≤ f y) l).take n →
        f a ≤ f b := by
  haveI : IsTotal ℕ (fun x y => f x ≤ f y) := ⟨fun x y => le_total _ _⟩
  haveI : IsTrans ℕ (fun x y => f x ≤ f y) := ⟨fun x y z hxy hyz => le_trans hxy hyz⟩
  intro a ha b hb hbn
  have hsort : (List.insertionSort (fun x y => f x ≤ f y) l).Sorted
      (fun x y => f x ≤ f y) := List.sorted_insertionSort _ l
  have hbs : b ∈ List.insertionSort (fun x y => f x ≤ f y) l :=
    (List.perm_insertionSort _ l).mem_iff.mpr hb
  have hsplit := (List.take_append_drop n (List.insertionSort (fun x y => f x ≤ f y) l)).symm
  have hbdrop : b ∈ (List.insertionSort (fun x y => f x ≤ f y) l).drop n := by
    rcases List.mem_append.mp (hsplit ▸ hbs) with hmem | hmem
    · exact absurd hmem hbn
    · exact hmem
  have hpw : List.Pairwise (fun x y => f x ≤ f y)
      ((List.insertionSort (fun x y => f x ≤ f y) l).take n ++
        (List.insertionSort (fun x y => f x ≤ f y) l).drop n) := by
    rw [List.take_append_drop]
    exact hsort
  exact (List.pairwise_append.mp hpw).2.2 a ha b hbdrop

/-- C7: detectSleepWakePatterns returns `{sleepPatternDetected := false}`
below 100 measurements; at 100 or more, the wake time is the first hour
0→23 outside the 6-lowest-count set with count above 1.5 × the mean hourly
count, the sleep time the first hour 0→23 inside that set with count below
0.5 × the mean, and detection holds iff one of the two exists; the
low-activity set really consists of (at most) 6 hours of minimal count. -/
theorem detectSleepWakePatterns_spec (ms : List RTTMeasurement) :
    (ms.length < 100 → detectSleepWakePatterns ms = ⟨none, none, false⟩) ∧
      (100 ≤ ms.length →
        (detectSleepWakePatterns ms).typicalWakeTime = findWakeTime ms ∧
        (detectSleepWakePatterns ms).typicalSleepTime = findSleepTime ms ∧
        (detectSleepWakePatterns ms).sleepPatternDetected =
          ((findWakeTime ms).isSome || (findSleepTime ms).isSome)) ∧
      findWakeTime ms = (List.range 24).find? (fun hour =>
        !(lowActivityHours ms).contains hour &&
          decide ((hourCount ms hour : ℚ) > meanHourlyCount ms * 1.5)) ∧
      findSleepTime ms = (List.range 24).find? (fun hour =>
        (lowActivityHours ms).contains hour &&
          decide ((hourCount ms hour : ℚ) < meanHourlyCount ms * 0.5)) ∧
      (lowActivityHours ms).length = min 6 (presentHours ms).length ∧
      (∀ h ∈ lowActivityHours ms, ∀ h2 ∈ presentHours ms,
        h2 ∉ lowActivityHours ms → hourCount ms h ≤ hourCount ms h2) := by
  refine ⟨?_, ?_, rfl, rfl, ?_, ?_⟩
  · intro h
    unfold detectSleepWakePatterns
    rw [if_pos h]
  · intro h
    unfold detectSleepWakePatterns
    rw [if_neg (Nat.not_lt.mpr h)]
    exact ⟨rfl, rfl, rfl⟩
  · unfold lowActivityHours
    rw [List.length_take, List.length_insertionSort]
  · intro a ha b hb hbn
    exact take_sorted_le (hourCount ms) (presentHours ms) 6 a ha b hb hbn

/-- C7 witness: the theorem applied to the empty list and to 100 identical
measurements. -/
theorem detectSleepWakePatterns_spec_witness :
    detectSleepWakePatterns [] = ⟨none, none, false⟩ ∧
      (detectSleepWakePatterns manyMeasurements).sleepPatternDetected =
        ((findWakeTime manyMeasurements).isSome || (findSleepTime manyMeasurements).isSome) :=
  ⟨(detectSleepWakePatterns_spec []).1 (by decide),
   ((detectSleepWakePatterns_spec manyMeasurements).2.1 (by decide)).2.2⟩

end DeviceActivity

